import Mathlib

/-!
Verification of the LCP adapter/registry subsystem.

This file is a shallow embedding, in Lean 4, of the adapter and registry
code of the LCP repository:

* the canonical `DataPoint` model (`src/lcp/models/data-point.js`),
* the MQTT (bus) adapter (`src/lcp/adapters/mqtt-adapter.js`),
* the WebSocket (stream) adapter (`src/lcp/index.js`, second module),
* the REST (polled-HTTP) adapter (`src/.history/lcp/auth/auth-service_*.js`,
  second module),
* the `AdapterManager` registry (`src/lcp/core/adapter-manager.js`).

JavaScript `Map` objects are embedded as association lists with JS `Map`
semantics (`mapGet` / `mapSet` / `mapDelete`), `Date` values as natural
numbers (milliseconds since the epoch), JSON payload values as a small
inductive (`JVal`), and promise/exception outcomes as `Except`.  Each
adapter method is a pure state-transformer translated statement by
statement from the JavaScript source; external outcomes (broker
subscription acknowledgements, publish acknowledgements) are explicit
Boolean parameters.
-/

namespace LCP

/-- A scalar JSON value as it appears in device payloads and command
parameters.  Numbers are embedded as rationals (JSON numbers in this code
base are decimal literals such as `20.5` or `40.0`). -/
inductive JVal where
  | jnum (q : ℚ)
  | jstr (s : String)
  | jbool (b : Bool)
  | jnull
deriving DecidableEq

/-- A flat JSON object: the open measurement/parameter maps of the code. -/
abbrev JObj := List (String × JVal)

/-- JS `Map.prototype.get`: the value stored at `k`, if any. -/
def mapGet {α : Type} : List (String × α) → String → Option α
  | [], _ => none
  | p :: rest, k => if p.1 = k then some p.2 else mapGet rest k

/-- JS `Map.prototype.set`: replace the entry at `k` in place, or append. -/
def mapSet {α : Type} (m : List (String × α)) (k : String) (v : α) :
    List (String × α) :=
  if (m.map Prod.fst).contains k then
    m.map (fun p => if p.1 = k then (k, v) else p)
  else m ++ [(k, v)]

/-- JS `Map.prototype.delete`: drop the entry stored at `k`. -/
def mapDelete {α : Type} : List (String × α) → String → List (String × α)
  | [], _ => []
  | p :: rest, k => if p.1 = k then mapDelete rest k else p :: mapDelete rest k

/-! ## Canonical data types -/

/-- The `mqtt_topics` field of a device's `connection_details`
(`{ data, control }` in `mqtt-adapter.js`). -/
structure MqttTopics where
  dataTopic : Option String
  control : Option String
deriving DecidableEq

/-- The transport-specific `connection_details` object of a device record.
Each field is `Option` because the JS object is duck-typed: an adapter reads
only the fields its transport needs, and a missing field is `undefined`. -/
structure ConnectionDetails where
  mqtt_topics : Option MqttTopics
  websocket_url : Option String
  subProtocol : Option String
  base_url : Option String
  polling_interval : Option Nat
deriving DecidableEq

/-- A device record as passed to `registerDevice`.  `protocol` is `Option`
because the JS field may be `undefined` (and the code guards with a falsy
check `!protocol`). -/
structure Device where
  device_id : String
  protocol : Option String
  connection_details : Option ConnectionDetails
deriving DecidableEq

/-- The options object accepted by the `DataPoint` constructor
(`data-point.js`).  Absent fields are `none`. -/
structure DataPointOptions where
  deviceId : String
  protocol : String
  timestamp : Option Nat
  parameters : Option JObj
  experimentId : Option String
  createdAt : Option Nat
deriving DecidableEq

/-- The `DataPoint` model (`src/lcp/models/data-point.js`). -/
structure DataPoint where
  deviceId : String
  protocol : String
  timestamp : Nat
  parameters : JObj
  experimentId : Option String
  createdAt : Nat
deriving DecidableEq

/-- The `DataPoint` constructor.  `now` is the value of `new Date()`.
`options.timestamp || new Date()` and `options.createdAt || new Date()`
default only on an absent field (a JS `Date` object is always truthy);
`options.parameters || {}` likewise (an object, even `{}`, is truthy);
`options.experimentId || null` maps both an absent field and the empty
string (falsy) to `null`. -/
def DataPoint.make (options : DataPointOptions) (now : Nat) : DataPoint :=
  { deviceId := options.deviceId
    protocol := options.protocol
    timestamp := options.timestamp.getD now
    parameters := options.parameters.getD []
    experimentId :=
      match options.experimentId with
      | some s => if s = "" then none else some s
      | none => none
    createdAt := options.createdAt.getD now }

/-- The database representation produced by `DataPoint.toDatabase`. -/
structure DbObject where
  device_id : String
  protocol : String
  timestamp : Nat
  parameters : JObj
  experiment_id : Option String
  created_at : Nat
deriving DecidableEq

/-- `DataPoint.prototype.toDatabase`. -/
def DataPoint.toDatabase (p : DataPoint) : DbObject :=
  { device_id := p.deviceId
    protocol := p.protocol
    timestamp := p.timestamp
    parameters := p.parameters
    experiment_id := p.experimentId
    created_at := p.createdAt }

/-- `DataPoint.fromDatabase` (static): builds a `DataPoint` through the
constructor from a database object.  `now` is the constructor's `new Date()`
(unused here because every constructor option is supplied). -/
def DataPoint.fromDatabase (dbObject : DbObject) (now : Nat) : DataPoint :=
  DataPoint.make
    { deviceId := dbObject.device_id
      protocol := dbObject.protocol
      timestamp := some dbObject.timestamp
      parameters := some dbObject.parameters
      experimentId := dbObject.experiment_id
      createdAt := some dbObject.created_at } now

/-- The consumer-facing shape produced by `DataPoint.toStandardFormat`.
`timestamp` abstracts the ISO-8601 rendering of the `Date` (the rendering
is injective, so equalities on it are faithful). -/
structure StandardFormat where
  device_id : String
  timestamp : Nat
  protocol : String
  parameters : JObj
  experiment_id : Option String
deriving DecidableEq

/-- `DataPoint.prototype.toStandardFormat`. -/
def DataPoint.toStandardFormat (p : DataPoint) : StandardFormat :=
  { device_id := p.deviceId
    timestamp := p.timestamp
    protocol := p.protocol
    parameters := p.parameters
    experiment_id := p.experimentId }

/-! ## MQTT (bus) adapter — `src/lcp/adapters/mqtt-adapter.js`

The adapter object's mutable fields.  `client` holds the identity of the
`mqtt.js` client object currently stored in `this.client` (`none` = `null`);
`clientsCreated` counts the calls to `mqtt.connect`, so that each created
client has a fresh identity (the client created by the `n`-th call is
client `n`). -/
structure MqttAdapter where
  brokerUrl : String
  client : Option Nat
  clientsCreated : Nat
  subscriptions : List (String × String)
  deviceMap : List (String × Device)
deriving DecidableEq

/-- The adapter state built by the `MqttAdapter` constructor. -/
def MqttAdapter.create (brokerUrl : String) : MqttAdapter :=
  { brokerUrl := brokerUrl
    client := none
    clientsCreated := 0
    subscriptions := []
    deviceMap := [] }

/-- `MqttAdapter.prototype.connect`: unconditionally evaluates
`this.client = mqtt.connect(this.brokerUrl, this.options)`, i.e. creates a
fresh client object and stores it, whatever `this.client` held before.
(The returned promise settles later on the new client's `connect`/`error`
events; the state change is this assignment.) -/
def MqttAdapter.connect (a : MqttAdapter) : MqttAdapter :=
  { a with client := some a.clientsCreated, clientsCreated := a.clientsCreated + 1 }

/-- `MqttAdapter.prototype.registerDevice`.  `subscribeOk` is the broker's
acknowledgement of `client.subscribe` (the callback's `err` being absent);
on a failed subscription the callback's `reject(err)` fires only after
`resolve()` has already run, so the returned promise is fulfilled either
way, and only the `subscriptions` entry is withheld.  A `null` client makes
`this.client.subscribe` throw, which the surrounding `try` turns into a
rejection before `deviceMap` is touched. -/
def MqttAdapter.registerDevice (a : MqttAdapter) (device : Device)
    (subscribeOk : Bool) : MqttAdapter × Except String Unit :=
  match device.connection_details with
  | none => (a, .error "MQTT topics not specified for device")
  | some cd =>
    match cd.mqtt_topics with
    | none => (a, .error "MQTT topics not specified for device")
    | some topics =>
      match topics.dataTopic with
      | none =>
        ({ a with deviceMap := mapSet a.deviceMap device.device_id device }, .ok ())
      | some dataTopic =>
        if dataTopic = "" then
          ({ a with deviceMap := mapSet a.deviceMap device.device_id device }, .ok ())
        else
          match a.client with
          | none => (a, .error "TypeError: this.client is null")
          | some _ =>
            let subs :=
              if subscribeOk then mapSet a.subscriptions dataTopic device.device_id
              else a.subscriptions
            ({ a with subscriptions := subs
                      deviceMap := mapSet a.deviceMap device.device_id device }, .ok ())

/-- A raw inbound transport payload, as handed to `JSON.parse`: either it
parses to an object or `JSON.parse` throws. -/
inductive Payload where
  | malformed (raw : String)
  | wellFormed (obj : JObj)
deriving DecidableEq

/-- The outcome of one run of an inbound message handler.  `crashed` is an
exception escaping the handler; `dropped` is a logged drop; `delivered` is
exactly one invocation of the inbound-data callback. -/
inductive HandlerResult where
  | crashed (e : String)
  | dropped
  | delivered (dp : DataPoint)
deriving DecidableEq

/-- The body of the MQTT `message` event handler (the code inside its
`try`), before the `catch`: resolve the topic to a device id (falsy id ⇒
drop, `.ok none`), the id to a device (missing ⇒ drop), parse the payload
(`JSON.parse` throws on a malformed body, `.error`), and build the
`DataPoint`. -/
def MqttAdapter.onMessageBody (a : MqttAdapter) (topic : String)
    (message : Payload) (now : Nat) : Except String (Option DataPoint) :=
  match mapGet a.subscriptions topic with
  | none => .ok none
  | some deviceId =>
    if deviceId = "" then .ok none
    else
      match mapGet a.deviceMap deviceId with
      | none => .ok none
      | some _device =>
        match message with
        | .malformed raw => .error ("Unexpected token in JSON: " ++ raw)
        | .wellFormed messageObj =>
          .ok (some (DataPoint.make
            { deviceId := deviceId
              protocol := "MQTT"
              timestamp := some now
              parameters := some messageObj
              experimentId := none
              createdAt := none } now))

/-- The MQTT `message` event handler (`connect`, lines 57–87): the body
wrapped in its `try`/`catch`; a thrown parse error is logged and dropped,
an early `return` is a drop, and a built `DataPoint` is handed to the
inbound-data callback.  The handler reads but never writes adapter state
(hence its embedding returns no new state). -/
def MqttAdapter.onMessage (a : MqttAdapter) (topic : String)
    (message : Payload) (now : Nat) : HandlerResult :=
  match a.onMessageBody topic message now with
  | .error _ => .dropped
  | .ok none => .dropped
  | .ok (some dp) => .delivered dp

/-- The serialized command message published by `sendCommand`:
`JSON.stringify({ command, parameters })` decoded back. -/
structure CommandMessage where
  command : String
  parameters : JObj
deriving DecidableEq

/-- The canonical command envelope handed to `sendCommand`.  `parameters`
is `Option` (`parameters || {}` defaults an absent field). -/
structure CommandEnvelope where
  device_id : String
  command : String
  parameters : Option JObj
deriving DecidableEq

/-- `MqttAdapter.prototype.sendCommand`.  Returns the list of
`client.publish` calls made (topic, decoded message) and the promise's
outcome; `publishOk` is the broker's acknowledgement.  Missing
`connection_details`/`mqtt_topics` make the destructuring throw inside the
`try` (rejected, nothing published); a falsy `control` topic is rejected
explicitly; a `null` client makes `this.client.publish` throw. -/
def MqttAdapter.sendCommand (a : MqttAdapter) (command : CommandEnvelope)
    (publishOk : Bool) : List (String × CommandMessage) × Except String Unit :=
  match mapGet a.deviceMap command.device_id with
  | none => ([], .error ("Device not found: " ++ command.device_id))
  | some device =>
    match device.connection_details with
    | none => ([], .error "TypeError: connection_details is undefined")
    | some cd =>
      match cd.mqtt_topics with
      | none => ([], .error "TypeError: mqtt_topics is undefined")
      | some topics =>
        match topics.control with
        | none => ([], .error ("Control topic not specified for device: " ++ command.device_id))
        | some controlTopic =>
          if controlTopic = "" then
            ([], .error ("Control topic not specified for device: " ++ command.device_id))
          else
            match a.client with
            | none => ([], .error "TypeError: this.client is null")
            | some _ =>
              ([(controlTopic,
                 { command := command.command
                   parameters := command.parameters.getD [] })],
               if publishOk then .ok () else .error "publish failed")

/-- `MqttAdapter.prototype.disconnect`: with no client it resolves at once;
otherwise `client.end` fires its callback, which nulls the client and
clears the subscriptions (the `deviceMap` is left as is). -/
def MqttAdapter.disconnect (a : MqttAdapter) : MqttAdapter :=
  match a.client with
  | none => a
  | some _ => { a with client := none, subscriptions := [] }

/-! ## WebSocket (stream) adapter — second module of `src/lcp/index.js` -/

/-- The WebSocket adapter's mutable fields.  `connections` is the set of
endpoint URLs with a *stored* connection (`this.connections` is populated
only inside the client's `connect` event handler, after the dial
succeeds); `dialCount` counts the calls to `this.client.connect` (the
connection-count probe of the spec's scenario); `dialed` records them in
order. -/
structure WsAdapter where
  connections : List String
  deviceMap : List (String × Device)
  dialCount : Nat
  dialed : List String
deriving DecidableEq

/-- The adapter state built by the `WebSocketAdapter` constructor. -/
def WsAdapter.create : WsAdapter :=
  { connections := [], deviceMap := [], dialCount := 0, dialed := [] }

/-- `WebSocketAdapter.prototype.registerDevice`: validates
`connection_details.websocket_url` (falsy ⇒ reject), stores the device in
`deviceMap`, then dials `this.client.connect(url, …)` only if no
connection to that URL is already *stored* — and resolves immediately,
without waiting for the dial's `connect` event. -/
def WsAdapter.registerDevice (a : WsAdapter) (device : Device) :
    WsAdapter × Except String Unit :=
  match device.connection_details with
  | none => (a, .error "WebSocket URL not specified for device")
  | some cd =>
    match cd.websocket_url with
    | none => (a, .error "WebSocket URL not specified for device")
    | some websocket_url =>
      if websocket_url = "" then
        (a, .error "WebSocket URL not specified for device")
      else
        let a' := { a with deviceMap := mapSet a.deviceMap device.device_id device }
        if websocket_url ∈ a'.connections then (a', .ok ())
        else
          ({ a' with dialCount := a'.dialCount + 1
                     dialed := a'.dialed ++ [websocket_url] }, .ok ())

/-- The client's `connect` event handler for a dial to `url`: stores the
connection (`this.connections.set(connection.url, connection)`). -/
def WsAdapter.connectEvent (a : WsAdapter) (url : String) : WsAdapter :=
  if url ∈ a.connections then a
  else { a with connections := a.connections ++ [url] }

/-- `WebSocketAdapter.prototype.findDeviceIdByUrl`: the first registered
device whose `connection_details.websocket_url` equals `url`.  A stored
device without `connection_details` would make the JS property access
throw (`.error`); a present `connection_details` without `websocket_url`
compares `undefined === url`, false, and the scan goes on. -/
def WsAdapter.findDeviceIdByUrl (deviceMap : List (String × Device))
    (url : String) : Except String (Option String) :=
  match deviceMap with
  | [] => .ok none
  | (deviceId, device) :: rest =>
    match device.connection_details with
    | none => .error "TypeError: connection_details is undefined"
    | some cd =>
      if cd.websocket_url = some url then .ok (some deviceId)
      else WsAdapter.findDeviceIdByUrl rest url

/-- An inbound WebSocket frame: the handler acts only on `utf8` frames. -/
inductive WsFrame where
  | utf8 (payload : Payload)
  | binary
deriving DecidableEq

/-- The body of the WebSocket `message` event handler (inside its `try`):
parse first (`JSON.parse` throws on a malformed body), then resolve the
connection URL to a device id (falsy id ⇒ drop), then build the
`DataPoint`. -/
def WsAdapter.onMessageBody (a : WsAdapter) (url : String) (payload : Payload)
    (now : Nat) : Except String (Option DataPoint) :=
  match payload with
  | .malformed raw => .error ("Unexpected token in JSON: " ++ raw)
  | .wellFormed dataObj =>
    match WsAdapter.findDeviceIdByUrl a.deviceMap url with
    | .error e => .error e
    | .ok none => .ok none
    | .ok (some deviceId) =>
      if deviceId = "" then .ok none
      else
        .ok (some (DataPoint.make
          { deviceId := deviceId
            protocol := "WebSocket"
            timestamp := some now
            parameters := some dataObj
            experimentId := none
            createdAt := none } now))

/-- The WebSocket `message` event handler (constructor, lines 154–179):
non-utf8 frames are ignored; the utf8 branch wraps the body in
`try`/`catch`, logging and dropping any throw.  The handler reads but
never writes adapter state (hence its embedding returns no new state). -/
def WsAdapter.onMessage (a : WsAdapter) (url : String) (frame : WsFrame)
    (now : Nat) : HandlerResult :=
  match frame with
  | .binary => .dropped
  | .utf8 payload =>
    match a.onMessageBody url payload now with
    | .error _ => .dropped
    | .ok none => .dropped
    | .ok (some dp) => .delivered dp

/-! ## REST (polled-HTTP) adapter — second module of
`src/.history/lcp/auth/auth-service_20250319101855.js` -/

/-- The REST adapter's mutable fields.  `pollingIntervals` maps a device id
to the identifier of its active `setInterval` timer. -/
structure RestAdapter where
  deviceMap : List (String × Device)
  pollingIntervals : List (String × Nat)
deriving DecidableEq

/-- `RestAdapter.prototype.stopPolling`: if the device has an active timer,
`clearInterval` it and delete the map entry; otherwise do nothing. -/
def RestAdapter.stopPolling (a : RestAdapter) (deviceId : String) : RestAdapter :=
  match mapGet a.pollingIntervals deviceId with
  | some _ => { a with pollingIntervals := mapDelete a.pollingIntervals deviceId }
  | none => a

/-- `RestAdapter.prototype.startPolling`: stop any existing timer for the
device, then (if the device is known) install a fresh repeating timer.
`intervalId` is the identifier `setInterval` returns. -/
def RestAdapter.startPolling (a : RestAdapter) (deviceId : String)
    (intervalId : Nat) : RestAdapter :=
  let a' := a.stopPolling deviceId
  match mapGet a'.deviceMap deviceId with
  | none => a'
  | some _ => { a' with pollingIntervals := mapSet a'.pollingIntervals deviceId intervalId }

/-- `RestAdapter.prototype.disconnect`: with a device id, stop that
device's polling and delete it; with none, stop polling for every key of
`pollingIntervals` (the loop calls `stopPolling` per key) and clear the
device map. -/
def RestAdapter.disconnect (a : RestAdapter) (deviceId : Option String) : RestAdapter :=
  match deviceId with
  | some id =>
    let a' := a.stopPolling id
    { a' with deviceMap := mapDelete a'.deviceMap id }
  | none =>
    let a' := (a.pollingIntervals.map Prod.fst).foldl
      (fun st id => st.stopPolling id) a
    { a' with deviceMap := [] }

/-- The first device id bound to timer `i` in a polling-interval map. -/
def firstKeyWithValue : List (String × Nat) → Nat → Option String
  | [], _ => none
  | p :: rest, i => if p.2 = i then some p.1 else firstKeyWithValue rest i

/-- The REST adapter together with the runtime's outstanding work: each
firing of a polling timer runs `axios.get(...).then(... onDataCallback ...)`,
so between the firing and the HTTP response there is an *in-flight* poll
cycle whose `.then` continuation will deliver a `DataPoint` for the device
id the `startPolling` closure captured.  `clearInterval` cancels future
firings but not a continuation already in flight.  `pending` is the list
of device ids with such an in-flight read. -/
structure RestSystem where
  adapter : RestAdapter
  pending : List String
deriving DecidableEq

/-- An event of the polling adapter's event loop: a repeating timer fires
(starting an HTTP read for the device that installed the timer, if the
timer still exists), an outstanding HTTP read settles (`ok` — the `.then`
branch delivering one `DataPoint`; `!ok` — the `.catch` branch, which only
logs), or an explicit `disconnect` call runs. -/
inductive RestEvent where
  | timerFire (intervalId : Nat)
  | responseArrive (k : Nat) (ok : Bool)
  | disconnectDevice (deviceId : String)
  | disconnectAll
deriving DecidableEq

/-- One step of the polling adapter's event loop.  Returns the new state
and the device ids delivered to the inbound-data callback during the step.
A timer firing enqueues an in-flight read only if the timer is still
installed; a settling read delivers for its captured device id whatever
the adapter's maps say by then — `disconnect` cannot reach into it. -/
def RestSystem.step (s : RestSystem) (e : RestEvent) : RestSystem × List String :=
  match e with
  | .timerFire intervalId =>
    match firstKeyWithValue s.adapter.pollingIntervals intervalId with
    | some deviceId => ({ s with pending := s.pending ++ [deviceId] }, [])
    | none => (s, [])
  | .responseArrive k ok =>
    match s.pending[k]? with
    | some deviceId =>
      ({ s with pending := s.pending.eraseIdx k }, if ok then [deviceId] else [])
    | none => (s, [])
  | .disconnectDevice deviceId =>
    ({ s with adapter := s.adapter.disconnect (some deviceId) }, [])
  | .disconnectAll =>
    ({ s with adapter := s.adapter.disconnect none }, [])

/-- A run of the polling event loop: the final state and the concatenated
deliveries of every step. -/
def RestSystem.run : RestSystem → List RestEvent → RestSystem × List String
  | s, [] => (s, [])
  | s, e :: es =>
    (((s.step e).1.run es).1, (s.step e).2 ++ ((s.step e).1.run es).2)

/-! ## Adapter registry — `AdapterManager`, `src/lcp/core/adapter-manager.js`

The registry treats each adapter behind its uniform contract, so the
managed adapter is embedded by the behaviour the registry observes:
whether it has a `disconnect` method, how a `disconnect()` call behaves,
and what its `registerDevice` returns. -/

/-- How an adapter's `disconnect()` call behaves, seen from the registry:
it returns a fulfilled promise, returns a rejected promise, or fails
synchronously — it throws, or returns a non-promise so that the
registry's `adapter.disconnect().catch(…)` itself throws a `TypeError`
(the `RestAdapter`'s `disconnect` returns `undefined`, hitting exactly
this case). -/
inductive DisconnectBehavior where
  | resolves
  | rejects
  | throwsSync
deriving DecidableEq

/-- An adapter as observed by the registry. -/
structure ManagedAdapter where
  hasDisconnect : Bool
  disconnectBehavior : DisconnectBehavior
  registerResult : Device → Except String Unit

/-- The `AdapterManager`'s mutable fields: the adapter map (protocol name →
adapter) and the routing table `deviceAdapterMap` (device id → protocol
name). -/
structure AdapterManager where
  adapters : List (String × ManagedAdapter)
  deviceAdapterMap : List (String × String)

/-- The first adapter (in the registry's iteration order) whose
`disconnect` exists and fails synchronously when the registry evaluates
`adapter.disconnect().catch(…)`. -/
def findSyncThrower : List (String × ManagedAdapter) → Option String
  | [] => none
  | (protocol, adapter) :: rest =>
    if adapter.hasDisconnect = true ∧ adapter.disconnectBehavior = .throwsSync then
      some protocol
    else findSyncThrower rest

/-- `AdapterManager.prototype.disconnect`: loop over the adapters with a
`disconnect` method, pushing `adapter.disconnect().catch(log)` for each;
a synchronous failure in that expression escapes the loop and rejects the
whole call before the `await` — so `deviceAdapterMap.clear()` runs exactly
when no adapter fails synchronously, while per-adapter promise rejections
are caught and logged. -/
def AdapterManager.disconnect (m : AdapterManager) :
    AdapterManager × Except String Unit :=
  match findSyncThrower m.adapters with
  | some protocol => (m, .error ("TypeError in " ++ protocol ++ " adapter disconnect"))
  | none => ({ m with deviceAdapterMap := [] }, .ok ())

/-- `AdapterManager.prototype.registerDevice` (lines 210–225): reject a
falsy protocol, reject an unbound protocol, delegate to the adapter's
`registerDevice`, and only after that `await` succeeds record
`device_id → protocol` in the routing table. -/
def AdapterManager.registerDevice (m : AdapterManager) (device : Device) :
    AdapterManager × Except String Unit :=
  match device.protocol with
  | none => (m, .error "Protocol not specified for device")
  | some protocol =>
    if protocol = "" then (m, .error "Protocol not specified for device")
    else
      match mapGet m.adapters protocol with
      | none => (m, .error ("No adapter available for protocol: " ++ protocol))
      | some adapter =>
        match adapter.registerResult device with
        | .error e => (m, .error e)
        | .ok () =>
          ({ m with deviceAdapterMap := mapSet m.deviceAdapterMap device.device_id protocol },
           .ok ())

/-! ## The registry composed with its concrete adapters

`initializeAdapters` binds `'MQTT'` to an `MqttAdapter` and `'WebSocket'`
to a `WebSocketAdapter` (when their options are given); `LcpSystem` is the
manager specialized to those two concrete adapters, with
`AdapterManager.registerDevice`'s dispatch inlined per protocol so that
the adapter-level state is visible. -/
structure LcpSystem where
  mqtt : MqttAdapter
  websocket : WsAdapter
  deviceAdapterMap : List (String × String)
deriving DecidableEq

/-- `AdapterManager.prototype.registerDevice` with the protocol dispatch
resolved against the two concrete adapters: delegate to the owning
adapter, and on its success record `device_id → protocol` in the routing
table. -/
def LcpSystem.registerDevice (s : LcpSystem) (device : Device)
    (subscribeOk : Bool) : LcpSystem × Except String Unit :=
  match device.protocol with
  | none => (s, .error "Protocol not specified for device")
  | some protocol =>
    if protocol = "" then (s, .error "Protocol not specified for device")
    else if protocol = "MQTT" then
      match s.mqtt.registerDevice device subscribeOk with
      | (a', .ok ()) =>
        ({ s with mqtt := a'
                  deviceAdapterMap := mapSet s.deviceAdapterMap device.device_id protocol },
         .ok ())
      | (a', .error e) => ({ s with mqtt := a' }, .error e)
    else if protocol = "WebSocket" then
      match s.websocket.registerDevice device with
      | (a', .ok ()) =>
        ({ s with websocket := a'
                  deviceAdapterMap := mapSet s.deviceAdapterMap device.device_id protocol },
         .ok ())
      | (a', .error e) => ({ s with websocket := a' }, .error e)
    else (s, .error ("No adapter available for protocol: " ++ protocol))

/-! ## Concrete states used by counterexamples and witnesses -/

/-- Connection details of a bus device with data and control topics. -/
def cdMqtt : ConnectionDetails :=
  { mqtt_topics := some { dataTopic := some "lab/thermo/data", control := some "lab/thermo/control" }
    websocket_url := none, subProtocol := none, base_url := none, polling_interval := none }

/-- Topics of the `tc-100` temperature controller. -/
def tcTopics : MqttTopics :=
  { dataTopic := some "lab/tc100/data", control := some "lab/tc100/control" }

/-- Connection details of the `tc-100` bus device. -/
def cdTc : ConnectionDetails :=
  { mqtt_topics := some tcTopics
    websocket_url := none, subProtocol := none, base_url := none, polling_interval := none }

/-- Connection details of a stream device at a shared endpoint. -/
def cdWs : ConnectionDetails :=
  { mqtt_topics := none, websocket_url := some "ws://lab.example/stream"
    subProtocol := none, base_url := none, polling_interval := none }

/-- The bus device `dev-1`. -/
def devBus : Device :=
  { device_id := "dev-1", protocol := some "MQTT", connection_details := some cdMqtt }

/-- The bus device `tc-100`. -/
def devTc : Device :=
  { device_id := "tc-100", protocol := some "MQTT", connection_details := some cdTc }

/-- The device `dev-7` registered over the bus transport. -/
def devMqtt7 : Device :=
  { device_id := "dev-7", protocol := some "MQTT", connection_details := some cdMqtt }

/-- The same device id `dev-7`, re-registered over the stream transport. -/
def devWs7 : Device :=
  { device_id := "dev-7", protocol := some "WebSocket", connection_details := some cdWs }

/-- First stream device at the shared endpoint. -/
def devS1 : Device :=
  { device_id := "s-1", protocol := some "WebSocket", connection_details := some cdWs }

/-- Second stream device at the same endpoint. -/
def devS2 : Device :=
  { device_id := "s-2", protocol := some "WebSocket", connection_details := some cdWs }

/-- A connected MQTT adapter with no devices. -/
def mqttConnected : MqttAdapter :=
  { brokerUrl := "mqtt://localhost:1883", client := some 0, clientsCreated := 1
    subscriptions := [], deviceMap := [] }

/-- A connected MQTT adapter with `dev-1` registered and subscribed. -/
def mqttWithDev1 : MqttAdapter :=
  { brokerUrl := "mqtt://localhost:1883", client := some 0, clientsCreated := 1
    subscriptions := [("lab/thermo/data", "dev-1")], deviceMap := [("dev-1", devBus)] }

/-- A connected MQTT adapter with `tc-100` registered and subscribed. -/
def mqttWithTc : MqttAdapter :=
  { brokerUrl := "mqtt://localhost:1883", client := some 0, clientsCreated := 1
    subscriptions := [("lab/tc100/data", "tc-100")], deviceMap := [("tc-100", devTc)] }

/-- A freshly constructed MQTT adapter (before any `connect`). -/
def mqttFresh : MqttAdapter := MqttAdapter.create "mqtt://localhost:1883"

/-- The composed system right after startup: connected MQTT adapter, fresh
WebSocket adapter, empty routing table. -/
def sys0 : LcpSystem :=
  { mqtt := mqttConnected, websocket := WsAdapter.create, deviceAdapterMap := [] }

/-- Connection details of a polled-HTTP device with a polling interval. -/
def cdPump : ConnectionDetails :=
  { mqtt_topics := none, websocket_url := none, subProtocol := none
    base_url := some "http://pump.local/api", polling_interval := some 1000 }

/-- The polled-HTTP device `pump-1`. -/
def devPump : Device :=
  { device_id := "pump-1", protocol := some "REST", connection_details := some cdPump }

/-- A REST adapter with `pump-1` registered and its repeating timer (id 7)
installed. -/
def restWithPump : RestAdapter :=
  { deviceMap := [("pump-1", devPump)], pollingIntervals := [("pump-1", 7)] }

/-- The polling event-loop state for `restWithPump` with no read in
flight. -/
def restSys0 : RestSystem := { adapter := restWithPump, pending := [] }

/-- A WebSocket adapter with `s-1` registered and its endpoint connection
stored. -/
def wsWithS1 : WsAdapter :=
  { connections := ["ws://lab.example/stream"], deviceMap := [("s-1", devS1)]
    dialCount := 1, dialed := ["ws://lab.example/stream"] }

/-- A registry-facing view of the `RestAdapter`: it has a `disconnect`, and
that `disconnect` returns `undefined` rather than a promise, so the
registry's `adapter.disconnect().catch(…)` fails synchronously. -/
def restLikeAdapter : ManagedAdapter :=
  { hasDisconnect := true, disconnectBehavior := .throwsSync
    registerResult := fun _ => .ok () }

/-- An adapter whose `disconnect` returns a rejected promise. -/
def rejectingAdapter : ManagedAdapter :=
  { hasDisconnect := true, disconnectBehavior := .rejects
    registerResult := fun _ => .ok () }

/-! ## Helper lemmas on the map embedding -/

theorem mem_mapDelete {α : Type} (m : List (String × α)) (k : String) (p : String × α) :
    p ∈ mapDelete m k ↔ p ∈ m ∧ p.1 ≠ k := by
  induction m with
  | nil => simp [mapDelete]
  | cons q rest ih =>
    by_cases h : q.1 = k
    · simp only [mapDelete, if_pos h, ih, List.mem_cons]
      constructor
      · rintro ⟨hp, hk⟩
        exact ⟨Or.inr hp, hk⟩
      · rintro ⟨hp | hp, hk⟩
        · subst hp
          exact absurd h hk
        · exact ⟨hp, hk⟩
    · simp only [mapDelete, if_neg h, List.mem_cons, ih]
      constructor
      · rintro (hp | ⟨hp, hk⟩)
        · subst hp
          exact ⟨Or.inl rfl, h⟩
        · exact ⟨Or.inr hp, hk⟩
      · rintro ⟨hp | hp, hk⟩
        · subst hp
          exact Or.inl rfl
        · exact Or.inr ⟨hp, hk⟩

theorem mapGet_eq_none_iff {α : Type} (m : List (String × α)) (k : String) :
    mapGet m k = none ↔ ∀ p ∈ m, p.1 ≠ k := by
  induction m with
  | nil => simp [mapGet]
  | cons q rest ih =>
    by_cases h : q.1 = k
    · simp only [mapGet, if_pos h]
      constructor
      · intro hc
        exact absurd hc (by simp)
      · intro hall
        exact absurd h (hall q (List.mem_cons_self q rest))
    · simp only [mapGet, if_neg h, ih, List.mem_cons]
      constructor
      · rintro hall p (hp | hp)
        · subst hp
          exact h
        · exact hall p hp
      · intro hall p hp
        exact hall p (Or.inr hp)

theorem mapGet_mapDelete_self {α : Type} (m : List (String × α)) (k : String) :
    mapGet (mapDelete m k) k = none := by
  rw [mapGet_eq_none_iff]
  intro p hp
  exact ((mem_mapDelete m k p).mp hp).2

theorem firstKeyWithValue_ne {l : List (String × Nat)} {d : String} {i : Nat}
    (h : ∀ p ∈ l, p.1 ≠ d) : firstKeyWithValue l i ≠ some d := by
  induction l with
  | nil => simp [firstKeyWithValue]
  | cons q rest ih =>
    by_cases hq : q.2 = i
    · simp only [firstKeyWithValue, if_pos hq]
      intro he
      exact h q (List.mem_cons_self q rest) (Option.some.inj he)
    · simp only [firstKeyWithValue, if_neg hq]
      exact ih (fun p hp => h p (List.mem_cons_of_mem _ hp))

/-! ## Helper lemmas on the REST adapter -/

theorem stopPolling_no_key (a : RestAdapter) (d : String) :
    ∀ p ∈ (a.stopPolling d).pollingIntervals, p.1 ≠ d := by
  unfold RestAdapter.stopPolling
  cases hg : mapGet a.pollingIntervals d with
  | none =>
    intro p hp
    exact (mapGet_eq_none_iff _ _).mp hg p hp
  | some v =>
    intro p hp
    exact ((mem_mapDelete _ _ p).mp hp).2

theorem stopPolling_subset (a : RestAdapter) (d : String) :
    ∀ p ∈ (a.stopPolling d).pollingIntervals, p ∈ a.pollingIntervals := by
  unfold RestAdapter.stopPolling
  cases hg : mapGet a.pollingIntervals d with
  | none =>
    intro p hp
    exact hp
  | some v =>
    intro p hp
    exact ((mem_mapDelete _ _ p).mp hp).1

theorem foldl_stopPolling_empty (keys : List String) :
    ∀ (a : RestAdapter), (∀ p ∈ a.pollingIntervals, p.1 ∈ keys) →
      (keys.foldl (fun st id => st.stopPolling id) a).pollingIntervals = [] := by
  induction keys with
  | nil =>
    intro a h
    cases hl : a.pollingIntervals with
    | nil => simpa using hl
    | cons p rest =>
      have := h p (by rw [hl]; exact List.mem_cons_self p rest)
      simp at this
  | cons k ks ih =>
    intro a h
    rw [List.foldl_cons]
    apply ih
    intro p hp
    have h1 : p.1 ≠ k := stopPolling_no_key a k p hp
    have h2 : p ∈ a.pollingIntervals := stopPolling_subset a k p hp
    have h3 := h p h2
    rw [List.mem_cons] at h3
    rcases h3 with hk | hk
    · exact absurd hk h1
    · exact hk

theorem disconnectAll_pollingIntervals (a : RestAdapter) :
    (a.disconnect none).pollingIntervals = [] := by
  unfold RestAdapter.disconnect
  exact foldl_stopPolling_empty _ a (fun p hp => List.mem_map_of_mem Prod.fst hp)

theorem disconnectDevice_no_key (a : RestAdapter) (d d' : String)
    (h : mapGet a.pollingIntervals d = none) :
    mapGet (a.disconnect (some d')).pollingIntervals d = none := by
  have heq : (a.disconnect (some d')).pollingIntervals
      = (a.stopPolling d').pollingIntervals := rfl
  rw [heq, mapGet_eq_none_iff]
  intro p hp
  exact (mapGet_eq_none_iff _ _).mp h p (stopPolling_subset a d' p hp)

/-- One event-loop step delivers nothing for a device with no in-flight
read and no installed timer, and preserves both facts. -/
theorem step_no_delivery (s : RestSystem) (d : String) (e : RestEvent)
    (h1 : d ∉ s.pending) (h2 : mapGet s.adapter.pollingIntervals d = none) :
    d ∉ (s.step e).2 ∧ d ∉ (s.step e).1.pending ∧
      mapGet (s.step e).1.adapter.pollingIntervals d = none := by
  cases e with
  | timerFire intervalId =>
    cases hfk : firstKeyWithValue s.adapter.pollingIntervals intervalId with
    | none => exact ⟨by simp [RestSystem.step, hfk], by simp [RestSystem.step, hfk, h1], by simp [RestSystem.step, hfk, h2]⟩
    | some d' =>
      have hne : d' ≠ d := by
        intro hdd
        subst hdd
        exact firstKeyWithValue_ne ((mapGet_eq_none_iff _ _).mp h2) hfk
      refine ⟨by simp [RestSystem.step, hfk], ?_, by simp [RestSystem.step, hfk, h2]⟩
      simp only [RestSystem.step, hfk, List.mem_append, List.mem_singleton]
      rintro (hp | hp)
      · exact h1 hp
      · exact hne hp.symm
  | responseArrive k ok =>
    cases hg : s.pending[k]? with
    | none => exact ⟨by simp [RestSystem.step, hg], by simp [RestSystem.step, hg, h1], by simp [RestSystem.step, hg, h2]⟩
    | some d' =>
      have hmem : d' ∈ s.pending := by
        have := List.getElem?_eq_some_iff.mp hg
        obtain ⟨hk, hget⟩ := this
        exact hget ▸ List.getElem_mem hk
      have hne : d ≠ d' := fun hdd => h1 (hdd ▸ hmem)
      refine ⟨?_, ?_, by simp [RestSystem.step, hg, h2]⟩
      · simp only [RestSystem.step, hg]
        cases ok <;> simp [hne]
      · simp only [RestSystem.step, hg]
        intro hp
        exact h1 (List.eraseIdx_subset s.pending k hp)
  | disconnectDevice d' =>
    exact ⟨by simp [RestSystem.step], h1,
      disconnectDevice_no_key s.adapter d d' h2⟩
  | disconnectAll =>
    refine ⟨by simp [RestSystem.step], h1, ?_⟩
    show mapGet (s.adapter.disconnect none).pollingIntervals d = none
    rw [disconnectAll_pollingIntervals]
    rfl

/-- No run of the event loop ever delivers for a device with no in-flight
read and no installed timer. -/
theorem run_no_delivery (d : String) :
    ∀ (es : List RestEvent) (s : RestSystem),
      d ∉ s.pending → mapGet s.adapter.pollingIntervals d = none →
      d ∉ (s.run es).2 := by
  intro es
  induction es with
  | nil =>
    intro s _ _
    simp [RestSystem.run]
  | cons e es ih =>
    intro s h1 h2
    obtain ⟨hd1, hd2, hd3⟩ := step_no_delivery s d e h1 h2
    simp only [RestSystem.run, List.mem_append]
    rintro (hp | hp)
    · exact hd1 hp
    · exact ih (s.step e).1 hd2 hd3 hp

/-! ## Helper lemmas on the registry -/

theorem findSyncThrower_eq_none {adapters : List (String × ManagedAdapter)}
    (h : ∀ pa ∈ adapters, pa.2.hasDisconnect = true →
      pa.2.disconnectBehavior ≠ DisconnectBehavior.throwsSync) :
    findSyncThrower adapters = none := by
  induction adapters with
  | nil => rfl
  | cons pa rest ih =>
    obtain ⟨protocol, adapter⟩ := pa
    unfold findSyncThrower
    rw [if_neg]
    · exact ih (fun q hq => h q (List.mem_cons_of_mem _ hq))
    · rintro ⟨h1, h2⟩
      exact h (protocol, adapter) (List.mem_cons_self _ _) h1 h2

theorem registerDevice_ok_or_unchanged (m : AdapterManager) (device : Device) :
    (m.registerDevice device).2 = Except.ok () ∨ (m.registerDevice device).1 = m := by
  unfold AdapterManager.registerDevice
  repeat' split
  all_goals first
  | exact Or.inl rfl
  | exact Or.inr rfl

/-- C10: a `DataPoint` constructed with any options survives
`fromDatabase ∘ toDatabase` unchanged: `deviceId`, `protocol`, `timestamp`,
`parameters`, `experimentId` and `createdAt` all round-trip losslessly
through the database serialization, for every constructor input and every
pair of construction times. -/
theorem C10_toDatabase_fromDatabase_roundtrip
    (options : DataPointOptions) (now now' : Nat) :
    DataPoint.fromDatabase (DataPoint.make options now).toDatabase now' =
      DataPoint.make options now := by
  unfold DataPoint.fromDatabase DataPoint.toDatabase DataPoint.make
  cases h : options.experimentId with
  | none => simp
  | some s =>
    by_cases hs : s = "" <;> simp [hs]

/-- C1 (counterexample): the claim "after `AdapterManager.disconnect`
completes, `deviceAdapterMap` is empty, for every prior registry state and
even when every adapter's `disconnect()` throws or fails" is false at a
concrete state: with one registered device routed to a `RestAdapter`-style
adapter — whose `disconnect` returns `undefined`, so the registry's
`adapter.disconnect().catch(…)` fails synchronously — the routing table
still holds the device afterwards. -/
theorem C1_counterexample :
    (AdapterManager.disconnect
      { adapters := [("REST", restLikeAdapter)]
        deviceAdapterMap := [("dev-1", "REST")] }).1.deviceAdapterMap
      = [("dev-1", "REST")] ∧
    (AdapterManager.disconnect
      { adapters := [("REST", restLikeAdapter)]
        deviceAdapterMap := [("dev-1", "REST")] }).1.deviceAdapterMap ≠ [] := by
  refine ⟨rfl, ?_⟩
  show ([("dev-1", "REST")] : List (String × String)) ≠ []
  simp

/-- C1 (amended): after `AdapterManager.disconnect`, `deviceAdapterMap` is
empty and the call resolves, for every prior registry state in which every
adapter's `disconnect()` actually returns a promise (fulfilled or
rejected): per-adapter rejections are caught and logged and the routing
table is cleared unconditionally.  An adapter whose `disconnect` throws
synchronously or returns a non-promise (as the `RestAdapter`'s does)
instead makes the registry's `disconnect` reject with the routing table
unchanged. -/
theorem C1_amended (m : AdapterManager)
    (h : ∀ pa ∈ m.adapters, pa.2.hasDisconnect = true →
      pa.2.disconnectBehavior ≠ DisconnectBehavior.throwsSync) :
    m.disconnect.1.deviceAdapterMap = [] ∧ m.disconnect.2 = Except.ok () := by
  unfold AdapterManager.disconnect
  rw [findSyncThrower_eq_none h]
  exact ⟨rfl, rfl⟩

/-- C1 (witness): the amended claim at a concrete registry whose single
adapter's `disconnect()` returns a rejected promise — the routing table
still ends empty and the call resolves. -/
theorem C1_witness :
    (AdapterManager.disconnect
      { adapters := [("MQTT", rejectingAdapter)]
        deviceAdapterMap := [("dev-1", "MQTT")] }).1.deviceAdapterMap = [] ∧
    (AdapterManager.disconnect
      { adapters := [("MQTT", rejectingAdapter)]
        deviceAdapterMap := [("dev-1", "MQTT")] }).2 = Except.ok () := by
  apply C1_amended
  intro pa hpa h1
  have hpa' := List.mem_singleton.mp hpa
  subst hpa'
  decide

/-- C2: if `AdapterManager.registerDevice` fails — a falsy protocol, no
bound adapter for the transport, or the delegated adapter-level
`registerDevice` rejecting — then the routing table `deviceAdapterMap` is
left unchanged: no entry for the device is added.  (The entry is written
only after the `await adapter.registerDevice(device)` succeeds.) -/
theorem C2_registerDevice_atomic (m : AdapterManager) (device : Device) (e : String)
    (h : (m.registerDevice device).2 = Except.error e) :
    (m.registerDevice device).1.deviceAdapterMap = m.deviceAdapterMap := by
  rcases registerDevice_ok_or_unchanged m device with hok | hunch
  · rw [h] at hok
    exact absurd hok (by simp)
  · rw [hunch]

/-- C2 (witness): a registry with no adapters rejects the registration of
a bus device, and its routing table — holding one prior device — is
unchanged. -/
theorem C2_witness :
    (AdapterManager.registerDevice
      { adapters := [], deviceAdapterMap := [("old-1", "MQTT")] }
      devBus).1.deviceAdapterMap = [("old-1", "MQTT")] :=
  C2_registerDevice_atomic
    { adapters := [], deviceAdapterMap := [("old-1", "MQTT")] }
    devBus "No adapter available for protocol: MQTT" rfl

/-- C3 (counterexample): the claim "re-registering a device id with a
different transport either is rejected or atomically removes the old
adapter's binding" is false on a concrete run: `dev-7` is registered over
MQTT and then re-registered over WebSocket; the second call succeeds and
re-routes the device, yet the MQTT adapter's internal device map still
contains `dev-7` — the device is simultaneously bound in both adapters. -/
theorem C3_counterexample :
    ((sys0.registerDevice devMqtt7 true).1.registerDevice devWs7 true).2
      = Except.ok () ∧
    mapGet ((sys0.registerDevice devMqtt7 true).1.registerDevice devWs7 true).1.deviceAdapterMap
      "dev-7" = some "WebSocket" ∧
    mapGet ((sys0.registerDevice devMqtt7 true).1.registerDevice devWs7 true).1.mqtt.deviceMap
      "dev-7" = some devMqtt7 ∧
    mapGet ((sys0.registerDevice devMqtt7 true).1.registerDevice devWs7 true).1.websocket.deviceMap
      "dev-7" = some devWs7 :=
  ⟨rfl, rfl, rfl, rfl⟩

/-- C3 (amended): re-registering a device id that the routing table
currently routes to MQTT under the WebSocket transport is accepted, not
rejected, and performs no teardown of the old binding: the MQTT adapter's
state (its device map included) is completely untouched, while on success
the routing-table entry is overwritten to `WebSocket`. -/
theorem C3_amended (s : LcpSystem) (device : Device) (subscribeOk : Bool)
    (hproto : device.protocol = some "WebSocket")
    (_hold : mapGet s.deviceAdapterMap device.device_id = some "MQTT") :
    (s.registerDevice device subscribeOk).1.mqtt = s.mqtt ∧
    ((s.registerDevice device subscribeOk).2 = Except.ok () →
      (s.registerDevice device subscribeOk).1.deviceAdapterMap
        = mapSet s.deviceAdapterMap device.device_id "WebSocket") := by
  unfold LcpSystem.registerDevice
  rw [hproto]
  cases hws : s.websocket.registerDevice device with
  | mk a' r =>
    cases r with
    | ok u =>
      cases u
      simp [hws]
    | error e =>
      simp [hws]

/-- C3 (witness): the amended claim at the concrete run of the
counterexample — after re-registering `dev-7` over WebSocket, the MQTT
adapter is untouched and the routing table routes `dev-7` to WebSocket. -/
theorem C3_witness :
    ((sys0.registerDevice devMqtt7 true).1.registerDevice devWs7 true).1.mqtt
      = (sys0.registerDevice devMqtt7 true).1.mqtt ∧
    (((sys0.registerDevice devMqtt7 true).1.registerDevice devWs7 true).2
        = Except.ok () →
      ((sys0.registerDevice devMqtt7 true).1.registerDevice devWs7 true).1.deviceAdapterMap
        = mapSet (sys0.registerDevice devMqtt7 true).1.deviceAdapterMap
            devWs7.device_id "WebSocket") :=
  C3_amended (sys0.registerDevice devMqtt7 true).1 devWs7 true rfl rfl

/-- C4 (counterexample): the claim that the `DataPoint` built from a bus
message `\x7b"temperature": 20.5\x7d` for `dev-1`, rendered through
`toStandardFormat`, reports `protocol == "bus"` is false at a concrete
message: the delivered point has the right `device_id` and
`parameters.temperature`, but its protocol field is the code's transport
identifier `"MQTT"`, not `"bus"`. -/
theorem C4_counterexample :
    MqttAdapter.onMessage mqttWithDev1 "lab/thermo/data"
        (Payload.wellFormed [("temperature", JVal.jnum 20.5)]) 1700000000000
      = HandlerResult.delivered
          { deviceId := "dev-1", protocol := "MQTT", timestamp := 1700000000000
            parameters := [("temperature", JVal.jnum 20.5)], experimentId := none
            createdAt := 1700000000000 } ∧
    (DataPoint.toStandardFormat
      { deviceId := "dev-1", protocol := "MQTT", timestamp := 1700000000000
        parameters := [("temperature", JVal.jnum 20.5)], experimentId := none
        createdAt := 1700000000000 }).device_id = "dev-1" ∧
    mapGet (DataPoint.toStandardFormat
      { deviceId := "dev-1", protocol := "MQTT", timestamp := 1700000000000
        parameters := [("temperature", JVal.jnum 20.5)], experimentId := none
        createdAt := 1700000000000 }).parameters "temperature"
      = some (JVal.jnum 20.5) ∧
    (DataPoint.toStandardFormat
      { deviceId := "dev-1", protocol := "MQTT", timestamp := 1700000000000
        parameters := [("temperature", JVal.jnum 20.5)], experimentId := none
        createdAt := 1700000000000 }).protocol ≠ "bus" := by
  refine ⟨rfl, rfl, rfl, ?_⟩
  show ("MQTT" : String) ≠ "bus"
  decide

/-- C4 (amended): for every bus message whose payload parses to
`\x7b"temperature": 20.5\x7d` arriving on a topic registered for `dev-1` (with
`dev-1` in the adapter's device map), the handler delivers a `DataPoint`
whose canonical consumer rendering (`toStandardFormat`) has
`parameters.temperature == 20.5`, `device_id == "dev-1"`, and
`protocol == "MQTT"` — the code's identifier for the bus transport (the
code never emits the spec's label `"bus"`). -/
theorem C4_bus_roundtrip (a : MqttAdapter) (topic : String) (device : Device)
    (now : Nat)
    (hsub : mapGet a.subscriptions topic = some "dev-1")
    (hdev : mapGet a.deviceMap "dev-1" = some device) :
    ∃ dp, a.onMessage topic
        (Payload.wellFormed [("temperature", JVal.jnum 20.5)]) now
        = HandlerResult.delivered dp ∧
      dp.toStandardFormat.device_id = "dev-1" ∧
      mapGet dp.toStandardFormat.parameters "temperature"
        = some (JVal.jnum 20.5) ∧
      dp.toStandardFormat.protocol = "MQTT" := by
  refine ⟨DataPoint.make
    { deviceId := "dev-1", protocol := "MQTT", timestamp := some now
      parameters := some [("temperature", JVal.jnum 20.5)]
      experimentId := none, createdAt := none } now, ?_, rfl, rfl, rfl⟩
  simp [MqttAdapter.onMessage, MqttAdapter.onMessageBody, hsub, hdev]

/-- C4 (witness): the amended claim at the concrete adapter of the
counterexample. -/
theorem C4_witness :
    ∃ dp, mqttWithDev1.onMessage "lab/thermo/data"
        (Payload.wellFormed [("temperature", JVal.jnum 20.5)]) 1700000000000
        = HandlerResult.delivered dp ∧
      dp.toStandardFormat.device_id = "dev-1" ∧
      mapGet dp.toStandardFormat.parameters "temperature"
        = some (JVal.jnum 20.5) ∧
      dp.toStandardFormat.protocol = "MQTT" :=
  C4_bus_roundtrip mqttWithDev1 "lab/thermo/data" devBus 1700000000000 rfl rfl

/-- C5: sending the envelope `\x7b"device_id":"tc-100",
"command":"setTemperature", "parameters":\x7b"target":40.0\x7d\x7d` through the bus
adapter, for every adapter state in which `tc-100` is registered with
connection details carrying a (non-falsy) control topic and the client is
live, performs exactly one `publish`, to that control topic, whose decoded
body is `\x7b"command":"setTemperature","parameters":\x7b"target":40.0\x7d\x7d` —
whatever the broker's acknowledgement turns out to be. -/
theorem C5_sendCommand_publishes_once (a : MqttAdapter) (device : Device)
    (cd : ConnectionDetails) (topics : MqttTopics) (controlTopic : String)
    (cl : Nat) (publishOk : Bool)
    (hdev : mapGet a.deviceMap "tc-100" = some device)
    (hcd : device.connection_details = some cd)
    (htp : cd.mqtt_topics = some topics)
    (hct : topics.control = some controlTopic)
    (hne : controlTopic ≠ "")
    (hcl : a.client = some cl) :
    (a.sendCommand
      { device_id := "tc-100", command := "setTemperature"
        parameters := some [("target", JVal.jnum 40.0)] } publishOk).1
      = [(controlTopic,
          { command := "setTemperature"
            parameters := [("target", JVal.jnum 40.0)] })] := by
  simp [MqttAdapter.sendCommand, hdev, hcd, htp, hct, hne, hcl]

/-- C5 (witness): the concrete adapter holding `tc-100` publishes exactly
one message on `lab/tc100/control` with the decoded command body. -/
theorem C5_witness :
    (mqttWithTc.sendCommand
      { device_id := "tc-100", command := "setTemperature"
        parameters := some [("target", JVal.jnum 40.0)] } true).1
      = [("lab/tc100/control",
          { command := "setTemperature"
            parameters := [("target", JVal.jnum 40.0)] })] :=
  C5_sendCommand_publishes_once mqttWithTc devTc cdTc tcTopics
    "lab/tc100/control" 0 true rfl rfl rfl rfl (by decide) rfl

/-- C6 (counterexample): the claim "for every pair of stream devices
registered in sequence at the same endpoint URL the adapter opens at most
one underlying connection; the second registration does not initiate a new
connect" is false on a concrete run: registering `s-1` and then `s-2`
(both at `ws://lab.example/stream`) on a fresh adapter initiates two
`client.connect` dials, because `registerDevice` resolves before the
`connect` event stores the first connection, so the second registration
sees no stored connection. -/
theorem C6_counterexample :
    ((WsAdapter.create.registerDevice devS1).1.registerDevice devS2).2
      = Except.ok () ∧
    ((WsAdapter.create.registerDevice devS1).1.registerDevice devS2).1.dialCount = 2 ∧
    ¬ ((WsAdapter.create.registerDevice devS1).1.registerDevice devS2).1.dialCount ≤ 1 := by
  refine ⟨rfl, rfl, ?_⟩
  show ¬ (2 : Nat) ≤ 1
  decide

/-- C6 (amended): the stream adapter reuses an existing connection only
once it is *stored*: for every adapter state whose `connections` pool
already holds the device's endpoint URL (the `connect` event for that
endpoint has been processed), registering the device succeeds without
initiating any new dial.  Before the first dial's `connect` event is
processed, each further registration at the same endpoint initiates its
own dial. -/
theorem C6_connection_reuse (a : WsAdapter) (device : Device)
    (cd : ConnectionDetails) (url : String)
    (hcd : device.connection_details = some cd)
    (hurl : cd.websocket_url = some url)
    (hne : url ≠ "")
    (hconn : url ∈ a.connections) :
    (a.registerDevice device).1.dialCount = a.dialCount ∧
    (a.registerDevice device).1.dialed = a.dialed ∧
    (a.registerDevice device).2 = Except.ok () := by
  simp [WsAdapter.registerDevice, hcd, hurl, hne, hconn]

/-- C6 (witness): the amended claim at a concrete run in which the first
dial's `connect` event has been processed before the second registration —
`s-2` then reuses the stored connection and the dial count stays at 1. -/
theorem C6_witness :
    (((WsAdapter.create.registerDevice devS1).1.connectEvent
        "ws://lab.example/stream").registerDevice devS2).1.dialCount
      = ((WsAdapter.create.registerDevice devS1).1.connectEvent
        "ws://lab.example/stream").dialCount ∧
    (((WsAdapter.create.registerDevice devS1).1.connectEvent
        "ws://lab.example/stream").registerDevice devS2).1.dialed
      = ((WsAdapter.create.registerDevice devS1).1.connectEvent
        "ws://lab.example/stream").dialed ∧
    (((WsAdapter.create.registerDevice devS1).1.connectEvent
        "ws://lab.example/stream").registerDevice devS2).2 = Except.ok () :=
  C6_connection_reuse
    ((WsAdapter.create.registerDevice devS1).1.connectEvent "ws://lab.example/stream")
    devS2 cdWs "ws://lab.example/stream" rfl rfl (by decide)
    (by decide)

/-- C7 (counterexample): the claim "after the polling adapter's disconnect
for a device completes, the poll timer is cancelled and no further
invocation of the inbound-data callback for that device ever occurs" is
false on a concrete schedule: `pump-1`'s timer (id 7) fires — starting
`axios.get(...).then(...)` — then `disconnect("pump-1")` completes (the
timer is indeed cancelled), and then the in-flight read settles: its
`.then` continuation, which `clearInterval` cannot cancel, still invokes
the inbound-data callback for `pump-1` after the disconnect. -/
theorem C7_counterexample :
    mapGet (((restSys0.step (RestEvent.timerFire 7)).1.step
        (RestEvent.disconnectDevice "pump-1")).1.adapter.pollingIntervals)
      "pump-1" = none ∧
    (((restSys0.step (RestEvent.timerFire 7)).1.step
        (RestEvent.disconnectDevice "pump-1")).1.step
      (RestEvent.responseArrive 0 true)).2 = ["pump-1"] :=
  ⟨rfl, rfl⟩

/-- C7 (amended): after the polling adapter's disconnect for a device (or
of all devices) completes, the device's repeating timer is cancelled, so
provided no poll cycle for that device is in flight at that moment, no
further invocation of the inbound-data callback for that device ever
occurs, over every subsequent schedule of timer firings, read settlements
and disconnects.  (A read already in flight at disconnect is the one
residue: its `.then` continuation still delivers once, as `clearInterval`
does not cancel a pending promise.) -/
theorem C7_amended (s : RestSystem) (d : String) (es : List RestEvent)
    (hflight : d ∉ s.pending) :
    mapGet (s.step (RestEvent.disconnectDevice d)).1.adapter.pollingIntervals d
      = none ∧
    d ∉ ((s.step (RestEvent.disconnectDevice d)).1.run es).2 ∧
    (s.step RestEvent.disconnectAll).1.adapter.pollingIntervals = [] ∧
    d ∉ ((s.step RestEvent.disconnectAll).1.run es).2 := by
  have hkey : mapGet (s.step (RestEvent.disconnectDevice d)).1.adapter.pollingIntervals d
      = none := by
    show mapGet (s.adapter.disconnect (some d)).pollingIntervals d = none
    have heq : (s.adapter.disconnect (some d)).pollingIntervals
        = (s.adapter.stopPolling d).pollingIntervals := rfl
    rw [heq, mapGet_eq_none_iff]
    exact stopPolling_no_key s.adapter d
  have hall : (s.step RestEvent.disconnectAll).1.adapter.pollingIntervals = [] := by
    show (s.adapter.disconnect none).pollingIntervals = []
    exact disconnectAll_pollingIntervals s.adapter
  refine ⟨hkey, ?_, hall, ?_⟩
  · exact run_no_delivery d es _ hflight hkey
  · refine run_no_delivery d es _ hflight ?_
    rw [hall]
    rfl

/-- C7 (witness): the amended claim at the concrete `pump-1` state with no
read in flight at disconnect, over a schedule that still contains a timer
firing and a read settlement — nothing is delivered for `pump-1`. -/
theorem C7_witness :
    mapGet (restSys0.step (RestEvent.disconnectDevice "pump-1")).1.adapter.pollingIntervals
      "pump-1" = none ∧
    "pump-1" ∉ ((restSys0.step (RestEvent.disconnectDevice "pump-1")).1.run
      [RestEvent.timerFire 7, RestEvent.responseArrive 0 true]).2 ∧
    (restSys0.step RestEvent.disconnectAll).1.adapter.pollingIntervals = [] ∧
    "pump-1" ∉ ((restSys0.step RestEvent.disconnectAll).1.run
      [RestEvent.timerFire 7, RestEvent.responseArrive 0 true]).2 :=
  C7_amended restSys0 "pump-1"
    [RestEvent.timerFire 7, RestEvent.responseArrive 0 true] (by simp [restSys0])

/-- C8: inbound message handlers contain their failures, on both cited
transports.  MQTT, for every adapter state: no inbound bus message ever
makes the handler raise (`crashed` is never produced — the `try`/`catch`
swallows parse errors); a malformed payload on a registered topic is
dropped; any message on an unregistered topic (unresolved origin) is
dropped; and since the handler never writes adapter state, a well-formed
payload arriving next on the registered topic is still translated and
delivered.  WebSocket, for every adapter state: the handler never raises
on any frame; a malformed utf8 frame is dropped; a well-formed frame from
a URL resolving to no registered device is dropped; and a well-formed
frame arriving next from the URL of a registered stream device is still
translated and delivered. -/
theorem C8_malformed_payload_contained (a : MqttAdapter) (w : WsAdapter)
    (url wsDeviceId raw : String) (obj wsObj : JObj) (now now2 : Nat)
    (topic deviceId : String) (device : Device)
    (hsub : mapGet a.subscriptions topic = some deviceId)
    (hid : deviceId ≠ "")
    (hdev : mapGet a.deviceMap deviceId = some device)
    (hfind : WsAdapter.findDeviceIdByUrl w.deviceMap url
      = Except.ok (some wsDeviceId))
    (hwsid : wsDeviceId ≠ "") :
    (∀ topic' payload now' e,
      a.onMessage topic' payload now' ≠ HandlerResult.crashed e) ∧
    a.onMessage topic (Payload.malformed raw) now = HandlerResult.dropped ∧
    (∀ topic' payload now', mapGet a.subscriptions topic' = none →
      a.onMessage topic' payload now' = HandlerResult.dropped) ∧
    a.onMessage topic (Payload.wellFormed obj) now2
      = HandlerResult.delivered
          { deviceId := deviceId, protocol := "MQTT", timestamp := now2
            parameters := obj, experimentId := none, createdAt := now2 } ∧
    (∀ url' frame now' e,
      w.onMessage url' frame now' ≠ HandlerResult.crashed e) ∧
    (∀ url' raw' now',
      w.onMessage url' (WsFrame.utf8 (Payload.malformed raw')) now'
        = HandlerResult.dropped) ∧
    (∀ url' obj' now', WsAdapter.findDeviceIdByUrl w.deviceMap url'
        = Except.ok none →
      w.onMessage url' (WsFrame.utf8 (Payload.wellFormed obj')) now'
        = HandlerResult.dropped) ∧
    w.onMessage url (WsFrame.utf8 (Payload.wellFormed wsObj)) now2
      = HandlerResult.delivered
          { deviceId := wsDeviceId, protocol := "WebSocket", timestamp := now2
            parameters := wsObj, experimentId := none, createdAt := now2 } := by
  refine ⟨?_, ?_, ?_, ?_, ?_, ?_, ?_, ?_⟩
  · intro topic' payload now' e
    unfold MqttAdapter.onMessage
    split <;> simp
  · simp [MqttAdapter.onMessage, MqttAdapter.onMessageBody, hsub, hid, hdev]
  · intro topic' payload now' hnone
    simp [MqttAdapter.onMessage, MqttAdapter.onMessageBody, hnone]
  · simp [MqttAdapter.onMessage, MqttAdapter.onMessageBody, hsub, hid, hdev,
      DataPoint.make]
  · intro url' frame now' e
    unfold WsAdapter.onMessage
    split
    · simp
    · split <;> simp
  · intro url' raw' now'
    rfl
  · intro url' obj' now' hnone
    simp [WsAdapter.onMessage, WsAdapter.onMessageBody, hnone]
  · simp [WsAdapter.onMessage, WsAdapter.onMessageBody, hfind, hwsid,
      DataPoint.make]

/-- C8 (witness): the contained-failure claim at concrete adapters holding
`dev-1` (bus) and `s-1` (stream): on each transport a malformed payload is
dropped without raising and a well-formed payload right after is delivered
for the registered device. -/
theorem C8_witness :
    (∀ topic' payload now' e,
      mqttWithDev1.onMessage topic' payload now' ≠ HandlerResult.crashed e) ∧
    mqttWithDev1.onMessage "lab/thermo/data" (Payload.malformed "not json") 5
      = HandlerResult.dropped ∧
    (∀ topic' payload now', mapGet mqttWithDev1.subscriptions topic' = none →
      mqttWithDev1.onMessage topic' payload now' = HandlerResult.dropped) ∧
    mqttWithDev1.onMessage "lab/thermo/data"
        (Payload.wellFormed [("temperature", JVal.jnum 20.5)]) 6
      = HandlerResult.delivered
          { deviceId := "dev-1", protocol := "MQTT", timestamp := 6
            parameters := [("temperature", JVal.jnum 20.5)], experimentId := none
            createdAt := 6 } ∧
    (∀ url' frame now' e,
      wsWithS1.onMessage url' frame now' ≠ HandlerResult.crashed e) ∧
    (∀ url' raw' now',
      wsWithS1.onMessage url' (WsFrame.utf8 (Payload.malformed raw')) now'
        = HandlerResult.dropped) ∧
    (∀ url' obj' now', WsAdapter.findDeviceIdByUrl wsWithS1.deviceMap url'
        = Except.ok none →
      wsWithS1.onMessage url' (WsFrame.utf8 (Payload.wellFormed obj')) now'
        = HandlerResult.dropped) ∧
    wsWithS1.onMessage "ws://lab.example/stream"
        (WsFrame.utf8 (Payload.wellFormed [("flow", JVal.jnum 1)])) 6
      = HandlerResult.delivered
          { deviceId := "s-1", protocol := "WebSocket", timestamp := 6
            parameters := [("flow", JVal.jnum 1)], experimentId := none
            createdAt := 6 } :=
  C8_malformed_payload_contained mqttWithDev1 wsWithS1
    "ws://lab.example/stream" "s-1" "not json"
    [("temperature", JVal.jnum 20.5)] [("flow", JVal.jnum 1)]
    5 6 "lab/thermo/data" "dev-1" devBus rfl (by decide) rfl rfl (by decide)

/-- C9 (counterexample): the claim "calling `connect()` a second time while
already connected is a no-op that does not replace or recreate the existing
client connection" is false at a concrete adapter: after one `connect`, a
second `connect` replaces `this.client` with a freshly created client (a
second `mqtt.connect` call), so the adapter state is not unchanged. -/
theorem C9_counterexample :
    mqttFresh.connect.connect.client ≠ mqttFresh.connect.client ∧
    mqttFresh.connect.connect ≠ mqttFresh.connect ∧
    mqttFresh.connect.connect.clientsCreated = 2 := by
  refine ⟨?_, ?_, rfl⟩ <;> decide

/-- C9 (amended): `MqttAdapter.connect` is not idempotent: every call —
in particular a second call while the adapter is already connected —
evaluates `mqtt.connect` once more, creating a fresh client and installing
it in place of the one in `this.client`; two calls in succession therefore
install two distinct clients.  (The call still resolves rather than
erroring once the new client's `connect` event fires.) -/
theorem C9_connect_not_idempotent (a : MqttAdapter) :
    a.connect.client = some a.clientsCreated ∧
    a.connect.clientsCreated = a.clientsCreated + 1 ∧
    a.connect.connect.client ≠ a.connect.client := by
  refine ⟨rfl, rfl, ?_⟩
  simp [MqttAdapter.connect]

end LCP
